import Mathlib

/-!
Shallow embedding of the document ingestion and context-retrieval pipeline of
Task 2 (`src/Task 2/app.py`, classes `DuckDuckGoSearch`, `DocumentLoader` and
`HuggingFaceQA`).  External collaborators (the DuckDuckGo provider, the
structured-file parsers, the embedding model, the FAISS similarity search and
the extractive QA model) are modelled as oracle values passed to each call:
an `Except` value stands for "the collaborator returned normally with this
result" or "the collaborator raised with this message".  Python strings are
Lean `String`s; `len` is `String.length`, slicing `s[:n]` (with `n ≥ 0`) is
`pySlice`, and `str.endswith` is `pyEndsWith`.
-/

/-- Python `s[:n]` for a non-negative `n`: the first `n` characters of `s`. -/
def pySlice (s : String) (n : Nat) : String := String.mk (s.data.take n)

/-- Python `s.endswith(suffix)`. -/
def pyEndsWith (s sfx : String) : Bool := sfx.data.isSuffixOf s.data

/-- A raw result dictionary returned by the `duckduckgo_search` library.
`none` in a field models a missing dictionary key, read through
`result.get(key, default)` in the source. -/
structure RawSearchResult where
  title : Option String
  body : Option String
  snippet : Option String
  href : Option String
deriving DecidableEq, Repr

/-- One formatted block of `DuckDuckGoSearch.search` (app.py lines 44-55):
the f-string `title`, newline, `Summary: ` and the snippet, newline,
`URL: ` and the link, newline — note the trailing newline in the source
f-string. -/
def formatSearchResult (r : RawSearchResult) : String :=
  (r.title.getD "No title available") ++ "\n" ++
  "Summary: " ++ (r.body.getD (r.snippet.getD "No description available")) ++ "\n" ++
  "URL: " ++ (r.href.getD "No link available") ++ "\n"

/-- `DuckDuckGoSearch.search` (app.py lines 29-63).  The oracle is the
outcome of `self.ddgs.text(...)`: a list of raw results, or the message of a
raised exception (caught by the `except` clause, which returns
`"Search error: " + str(e)`). -/
def ddgSearch (oracle : Except String (List RawSearchResult))
    (_query : String) (_max_results : Nat) : String :=
  match oracle with
  | Except.error e => "Search error: " ++ e
  | Except.ok search_results =>
    if search_results.isEmpty then
      "No results found. Try modifying your search query."
    else
      String.intercalate "\n\n" (search_results.map formatSearchResult)

/-- The mutable fields of a `DocumentLoader` instance (app.py lines 70-82).
`vector_store` holds the page contents of the documents indexed by
`FAISS.from_documents` (`none` models Python `None`); `embeddings` records
whether `self.embeddings` is set to a (truthy) embeddings object. -/
structure LoaderState where
  current_document : String
  document_source : String
  vector_store : Option (List String)
  embeddings : Bool
deriving DecidableEq, Repr

/-- The initial state built by `DocumentLoader.__init__`. -/
def initLoaderState : LoaderState :=
  { current_document := ""
    document_source := "None"
    vector_store := none
    embeddings := false }

/-- The text of the `solar_energy` entry of `default_documents`
(app.py line 73). -/
def solarEnergyText : String :=
  "Solar energy is one of the most abundant renewable resources available today. It is generated by converting sunlight into electricity. Solar panels, also known as photovoltaic panels, capture sunlight and convert it into usable electricity through the photovoltaic effect. This clean energy source produces no emissions during operation and is becoming increasingly cost-effective. Solar power can be used in large utility-scale installations or small residential systems, making it versatile for various applications."

/-- The text of the `ai_ethics` entry of `default_documents`
(app.py line 74). -/
def aiEthicsText : String :=
  "AI Ethics encompasses the moral principles and guidelines governing the development and use of artificial intelligence systems. Key concerns include privacy, bias and fairness, transparency, accountability, and the impact on employment. As AI becomes more integrated into daily life, ensuring these systems are designed with ethical considerations becomes increasingly important. Some propose regulatory frameworks while others advocate for industry self-regulation. The field continues to evolve as new AI capabilities emerge."

/-- The text of the `renewable_energy` entry of `default_documents`
(app.py line 75). -/
def renewableEnergyText : String :=
  "Renewable energy comes from naturally replenished sources such as sunlight, wind, water, and geothermal heat. Unlike fossil fuels, renewable energy sources won't deplete over time. Major types include solar, wind, hydroelectric, biomass, and geothermal power. The renewable energy sector is growing rapidly worldwide as countries seek to reduce carbon emissions and combat climate change. Technological advances continue to make renewable energy increasingly cost-competitive with conventional energy sources."

/-- The `default_documents` dictionary of `DocumentLoader.__init__`
(app.py lines 72-76). -/
def default_documents : List (String × String) :=
  [("solar_energy", solarEnergyText),
   ("ai_ethics", aiEthicsText),
   ("renewable_energy", renewableEnergyText)]

/-- `DocumentLoader.load_from_text` (app.py lines 84-88): returns the new
`current_document` together with the updated state. -/
def load_from_text (st : LoaderState) (text : String) : String × LoaderState :=
  let st' := { st with current_document := text, document_source := "User input" }
  (st'.current_document, st')

/-- `DocumentLoader.load_from_example` (app.py lines 140-147).  Python dict
lookup on `default_documents` is association-list lookup (the keys are
distinct). -/
def load_from_example (st : LoaderState) (example_key : String) :
    String × LoaderState :=
  match default_documents.lookup example_key with
  | some text =>
    let st' := { st with current_document := text
                         document_source := "Example: " ++ example_key }
    (st'.current_document, st')
  | none => ("Example not found. Please select a valid example.", st)

/-- `DocumentLoader.load_from_web_search` (app.py lines 149-161).  Since
`DuckDuckGoSearch.search` catches every exception and returns a string, the
`except` clause of `load_from_web_search` is unreachable and the call always
stores the returned content. -/
def load_from_web_search (st : LoaderState)
    (oracle : Except String (List RawSearchResult))
    (query : String) (max_results : Nat) : String × LoaderState :=
  let content := ddgSearch oracle query max_results
  let st' := { st with current_document := content
                       document_source := "DuckDuckGo Search: " ++ query }
  (st'.current_document, st')

/-- An uploaded file as seen by `load_from_file`: its `name` and the outcome
of `file.getvalue().decode("utf-8")` (`error` models a raised decode
exception). -/
structure UploadedFile where
  name : String
  decodeResult : Except String String

/-- The collaborator outcomes of one `load_from_file` call on the structured
path: `parseResult` is `loader.load()` as the list of `page_content` blocks
(or a parser exception message); `embedCtorOk`/`faissResult` are the outcomes
of `HuggingFaceEmbeddings()` and `FAISS.from_documents`. -/
structure FileOracle where
  parseResult : Except String (List String)
  embedCtorOk : Except String Unit
  faissResult : Except String Unit

/-- The observable outcome of one `load_from_file` call: the returned string,
the state of the loader at return, whether the temporary file created for the
structured path still exists on disk at return, and whether the
`FAISS` index build block (the `len(text_content) > 100` branch) was
entered. -/
structure FileCallResult where
  ret : String
  state : LoaderState
  tempFileExists : Bool
  indexBuildInvoked : Bool
deriving Repr

/-- The inner `try` body of the structured path of `load_from_file`
(app.py lines 106-126), before the `finally` clause runs: the state as
mutated so far, whether the `len(text_content) > 100` branch was entered,
and either the exception message (the assignments to `self.embeddings`,
`self.vector_store`, `self.current_document` and `self.document_source` run
in source order, so an exception keeps the assignments already made) or
success. -/
def load_structured_inner (st : LoaderState) (fileName : String)
    (oracle : FileOracle) : LoaderState × Bool × Option String :=
  match oracle.parseResult with
  | Except.error e => (st, false, some e)
  | Except.ok docs =>
    let text_content := String.intercalate "\n\n" docs
    if text_content.length > 100 then
      match oracle.embedCtorOk with
      | Except.error e => (st, true, some e)
      | Except.ok _ =>
        let st1 := { st with embeddings := true }
        match oracle.faissResult with
        | Except.error e => (st1, true, some e)
        | Except.ok _ =>
          let st2 := { st1 with vector_store := some docs
                                current_document := text_content
                                document_source := fileName }
          (st2, true, none)
    else
      let st1 := { st with current_document := text_content
                           document_source := fileName }
      (st1, false, none)

/-- The `finally` clause at app.py lines 128-131: given whether the
temporary file exists when the inner `try` finishes, `os.remove` deletes it
if it exists, so whichever way the `try` ended the file is gone
afterwards. -/
def finallyRemoveTemp (tempExists : Bool) : Bool :=
  if tempExists then false else tempExists

/-- `DocumentLoader.load_from_file` (app.py lines 90-138).  The `.txt`/`.md`
branch decodes the bytes directly (no temporary file); the structured branch
writes a temporary file (so it exists when the inner `try` is entered), runs
the inner `try` of `load_structured_inner`, then the `finally` clause of
`finallyRemoveTemp` runs on every path — normal return and exception alike —
and the outer `except` turns any exception into the
`"File loading error: ..."` return value, keeping the state as mutated so
far. -/
def load_from_file (st : LoaderState) (file : UploadedFile)
    (oracle : FileOracle) : FileCallResult :=
  if pyEndsWith file.name ".txt" || pyEndsWith file.name ".md" then
    match file.decodeResult with
    | Except.ok text =>
      let st' := { st with current_document := text
                           document_source := file.name }
      { ret := st'.current_document, state := st'
        tempFileExists := false, indexBuildInvoked := false }
    | Except.error e =>
      { ret := "File loading error: " ++ e, state := st
        tempFileExists := false, indexBuildInvoked := false }
  else
    match load_structured_inner st file.name oracle with
    | (st', invoked, none) =>
      { ret := st'.current_document, state := st'
        tempFileExists := finallyRemoveTemp true, indexBuildInvoked := invoked }
    | (stPartial, invoked, some e) =>
      { ret := "File loading error: " ++ e, state := stPartial
        tempFileExists := finallyRemoveTemp true, indexBuildInvoked := invoked }

/-- The truncation pattern repeated at app.py lines 171-174 and 179-182:
when `len(s) > max_chars`, return `s[:max_chars] + "..."`, otherwise return
`s` unchanged. -/
def truncateWithEllipsis (s : String) (max_chars : Nat) : String :=
  if s.length > max_chars then pySlice s max_chars ++ "..." else s

/-- `DocumentLoader.get_relevant_context` (app.py lines 163-182).  The oracle
is the outcome of `self.vector_store.similarity_search(query, k=3)` as the
list of `page_content` strings of the retrieved documents (or the message of
a raised exception, after which the code falls back to the full document).
The method reads but never assigns the loader state, so it is a pure
function of the state. -/
def get_relevant_context (simSearch : Except String (List String))
    (st : LoaderState) (_query : String) (max_chars : Nat) : String :=
  if st.vector_store.isSome && st.embeddings then
    match simSearch with
    | Except.ok docs =>
      truncateWithEllipsis (String.intercalate "\n\n" docs) max_chars
    | Except.error _ =>
      truncateWithEllipsis st.current_document max_chars
  else
    truncateWithEllipsis st.current_document max_chars

/-- The dictionary returned by `HuggingFaceQA.answer_question`: the answer
string and the numeric confidence score (the source only ever compares it to
the literal `0.0`, modelled as the rational `0`). -/
structure QADict where
  answer : String
  score : ℚ
deriving DecidableEq, Repr

/-- `HuggingFaceQA.answer_question` (app.py lines 213-230).  `pipelineInit`
is whether `self.qa_pipeline` is set (truthy); `callResult` is the outcome of
invoking the pipeline on (question, context). -/
def answer_question (pipelineInit : Bool)
    (callResult : Except String QADict)
    (_question _context : String) : QADict :=
  if !pipelineInit then
    { answer := "QA pipeline not initialized", score := 0 }
  else
    match callResult with
    | Except.ok result => result
    | Except.error e => { answer := "QA error: " ++ e, score := 0 }

/-- The per-result block exactly as the specification words it: title,
newline, `Summary: ` and the snippet, newline, `URL: ` and the link — with
no trailing newline.  This definition follows the spec's wording and exists
to be compared with `formatSearchResult`, which is translated from the
source. -/
def specSearchBlock (r : RawSearchResult) : String :=
  (r.title.getD "No title available") ++ "\nSummary: " ++
  (r.body.getD (r.snippet.getD "No description available")) ++ "\nURL: " ++
  (r.href.getD "No link available")

/-- The synthetic search Document exactly as the specification words it: the
`specSearchBlock`s joined by blank lines with no other characters added. -/
def specSearchDocument (results : List RawSearchResult) : String :=
  String.intercalate "\n\n" (results.map specSearchBlock)

/-- A concrete search result with all dictionary keys present. -/
def sampleResult : RawSearchResult :=
  { title := some "Lean theorem prover"
    body := some "An interactive theorem prover."
    snippet := none
    href := some "https:example.org" }

/-- A concrete passage of more than 100 characters, used as the parsed
content of a structured file. -/
def examplePassage : String :=
  "Solar panels, also known as photovoltaic panels, capture sunlight and convert it into usable electricity through the photovoltaic effect."

/-- A concrete uploaded PDF file (its bytes are not valid UTF-8, which is
irrelevant on the structured path). -/
def pdfUpload : UploadedFile :=
  { name := "solar.pdf", decodeResult := Except.error "invalid utf-8" }

/-- Collaborator outcomes for a fully successful structured-file ingestion
of `examplePassage`. -/
def pdfOracle : FileOracle :=
  { parseResult := Except.ok [examplePassage]
    embedCtorOk := Except.ok ()
    faissResult := Except.ok () }

/-- A loader state in which a Document with an Index is current, as left by
a successful structured-file ingestion. -/
def staleIndexState : LoaderState :=
  { current_document := "an indexed document of an earlier ingestion"
    document_source := "earlier.pdf"
    vector_store := some ["a stale passage"]
    embeddings := true }

lemma pySlice_length_le (s : String) (n : Nat) : (pySlice s n).length ≤ n := by
  show (s.data.take n).length ≤ n
  exact List.length_take_le n s.data

lemma truncateWithEllipsis_length_le (s : String) (mc : Nat) :
    (truncateWithEllipsis s mc).length ≤ mc + 3 := by
  unfold truncateWithEllipsis
  by_cases h : s.length > mc
  · rw [if_pos h, String.length_append]
    have h1 := pySlice_length_le s mc
    have h2 : ("..." : String).length = 3 := rfl
    omega
  · rw [if_neg h]
    omega

lemma truncateWithEllipsis_of_le (s : String) (mc : Nat) (h : s.length ≤ mc) :
    truncateWithEllipsis s mc = s := by
  unfold truncateWithEllipsis
  rw [if_neg (by omega)]

lemma append_block_assoc (a b c : String) :
    a ++ "\n" ++ "Summary: " ++ b ++ "\n" ++ "URL: " ++ c ++ "\n" =
    a ++ "\nSummary: " ++ b ++ "\nURL: " ++ c ++ "\n" := by
  have h1 : ("\n" : String) ++ "Summary: " = "\nSummary: " := rfl
  have h2 : ("\n" : String) ++ "URL: " = "\nURL: " := rfl
  rw [String.append_assoc a "\n" "Summary: ", h1,
      String.append_assoc (a ++ "\nSummary: " ++ b) "\n" "URL: ", h2]

lemma formatSearchResult_eq_spec (r : RawSearchResult) :
    formatSearchResult r = specSearchBlock r ++ "\n" := by
  unfold formatSearchResult specSearchBlock
  exact append_block_assoc _ _ _

set_option maxRecDepth 4000 in
/-- Claim C1, as stated, is false: after a structured-file ingestion builds
an Index, a subsequent successful `load_from_text` replaces the Document but
leaves the previous `vector_store`/`embeddings` in place, and
`get_relevant_context` then returns a passage of the superseded Document
(the similarity-search collaborator returns a passage stored in the stale
index, namely `examplePassage`), which is not the current Document. -/
theorem c1_counterexample :
    ((load_from_text (load_from_file initLoaderState pdfUpload pdfOracle).state
        "Fresh user note").2.current_document = "Fresh user note") ∧
    ((load_from_text (load_from_file initLoaderState pdfUpload pdfOracle).state
        "Fresh user note").2.vector_store = some [examplePassage]) ∧
    (get_relevant_context (Except.ok [examplePassage])
        (load_from_text (load_from_file initLoaderState pdfUpload pdfOracle).state
          "Fresh user note").2 "query" 8000 = examplePassage) ∧
    examplePassage ≠ "Fresh user note" := by
  refine ⟨rfl, rfl, ?_, by decide⟩
  rfl

/-- Claim C1 (amended): only the structured-file ingestion path replaces the
Index.  `load_from_text`, `load_from_web_search` and a successful
`load_from_example` replace the current Document but leave any previous
`vector_store` and `embeddings` unchanged, so `get_relevant_context` can
retrieve passages belonging to a Document that is no longer current. -/
theorem c1_index_not_dropped (st : LoaderState) (text q key : String)
    (oracle : Except String (List RawSearchResult)) (mr : Nat) :
    ((load_from_text st text).2.vector_store = st.vector_store ∧
     (load_from_text st text).2.embeddings = st.embeddings ∧
     (load_from_text st text).2.current_document = text) ∧
    ((load_from_web_search st oracle q mr).2.vector_store = st.vector_store ∧
     (load_from_web_search st oracle q mr).2.embeddings = st.embeddings) ∧
    (∀ t, default_documents.lookup key = some t →
      (load_from_example st key).2.vector_store = st.vector_store ∧
      (load_from_example st key).2.embeddings = st.embeddings ∧
      (load_from_example st key).2.current_document = t) := by
  refine ⟨⟨rfl, rfl, rfl⟩, ⟨rfl, rfl⟩, ?_⟩
  intro t ht
  unfold load_from_example
  rw [ht]
  exact ⟨rfl, rfl, rfl⟩

/-- Witness for `c1_index_not_dropped` at a concrete state holding a stale
index. -/
theorem c1_witness :
    (load_from_text staleIndexState "new note").2.vector_store
      = some ["a stale passage"] ∧
    (load_from_example staleIndexState "solar_energy").2.vector_store
      = some ["a stale passage"] :=
  ⟨(c1_index_not_dropped staleIndexState "new note" "q" "solar_energy"
      (Except.ok []) 3).1.1,
   ((c1_index_not_dropped staleIndexState "new note" "q" "solar_energy"
      (Except.ok []) 3).2.2 solarEnergyText rfl).1⟩

/-- Claim C2: for every question, loader state and `max_chars`, the string
returned by `get_relevant_context` has length at most `max_chars + 3` (the
length of the ellipsis marker `...`), on both the index-backed path and the
raw-text fallback path. -/
theorem c2_context_length_le (simSearch : Except String (List String))
    (st : LoaderState) (q : String) (mc : Nat) :
    (get_relevant_context simSearch st q mc).length ≤ mc + 3 := by
  unfold get_relevant_context
  split
  · cases simSearch with
    | ok docs => exact truncateWithEllipsis_length_le _ mc
    | error e => exact truncateWithEllipsis_length_le _ mc
  · exact truncateWithEllipsis_length_le _ mc

/-- Claim C3, as stated, is false: when the search provider raises, the
error is converted to the string `Search error: ...` inside
`DuckDuckGoSearch.search`, and `load_from_web_search` then installs that
error string as the new current Document — the previously current Document
(`the previous document` here) is replaced, not preserved. -/
theorem c3_counterexample :
    (load_from_web_search
      { current_document := "the previous document"
        document_source := "User input"
        vector_store := none
        embeddings := false }
      (Except.error "connection refused") "some query" 3).2.current_document
      = "Search error: connection refused" ∧
    ("Search error: connection refused" : String) ≠ "the previous document" :=
  ⟨rfl, by decide⟩

/-- Claim C3 (amended): every failing ingestion call returns a descriptive
error string rather than raising.  Failing `load_from_file` calls (decode
error on the text path, parser error, index-build error on the structured
path) leave `current_document` and `document_source` unchanged, but a
search-provider error does not: `load_from_web_search` stores the
`Search error: ...` string as the new current Document, replacing the
previous one. -/
theorem c3_error_handling (st : LoaderState) (file : UploadedFile)
    (oracle : FileOracle) (e q : String) (mr : Nat) :
    ((pyEndsWith file.name ".txt" || pyEndsWith file.name ".md") = true →
      ∀ err, file.decodeResult = Except.error err →
        (load_from_file st file oracle).ret = "File loading error: " ++ err ∧
        (load_from_file st file oracle).state = st) ∧
    ((pyEndsWith file.name ".txt" || pyEndsWith file.name ".md") = false →
      ∀ err, oracle.parseResult = Except.error err →
        (load_from_file st file oracle).ret = "File loading error: " ++ err ∧
        (load_from_file st file oracle).state = st) ∧
    ((pyEndsWith file.name ".txt" || pyEndsWith file.name ".md") = false →
      ∀ docs err, oracle.parseResult = Except.ok docs →
        oracle.embedCtorOk = Except.ok () →
        oracle.faissResult = Except.error err →
        (String.intercalate "\n\n" docs).length > 100 →
        (load_from_file st file oracle).ret = "File loading error: " ++ err ∧
        (load_from_file st file oracle).state.current_document
          = st.current_document ∧
        (load_from_file st file oracle).state.document_source
          = st.document_source) ∧
    ((load_from_web_search st (Except.error e) q mr).1
        = "Search error: " ++ e ∧
     (load_from_web_search st (Except.error e) q mr).2.current_document
        = "Search error: " ++ e) := by
  refine ⟨?_, ?_, ?_, ⟨rfl, rfl⟩⟩
  · intro hext err herr
    simp [load_from_file, hext, herr]
  · intro hext err herr
    simp [load_from_file, load_structured_inner, hext, herr]
  · intro hext docs err hparse hembed hfaiss hlen
    simp [load_from_file, load_structured_inner, hext, hparse, hembed, hfaiss,
          if_pos hlen]

/-- Witness for `c3_error_handling` at concrete failing inputs. -/
theorem c3_witness :
    (load_from_file initLoaderState
      { name := "notes.txt", decodeResult := Except.error "bad byte" }
      pdfOracle).ret = "File loading error: " ++ "bad byte" ∧
    (load_from_file initLoaderState pdfUpload
      { parseResult := Except.error "corrupt pdf"
        embedCtorOk := Except.ok ()
        faissResult := Except.ok () }).state = initLoaderState := by
  constructor
  · exact ((c3_error_handling initLoaderState
      { name := "notes.txt", decodeResult := Except.error "bad byte" }
      pdfOracle "e" "q" 3).1 (by decide) "bad byte" rfl).1
  · exact ((c3_error_handling initLoaderState pdfUpload
      { parseResult := Except.error "corrupt pdf"
        embedCtorOk := Except.ok ()
        faissResult := Except.ok () } "e" "q" 3).2.1 (by decide)
      "corrupt pdf" rfl).2

/-- Claim C4: when the search provider returns an empty result sequence,
the web-search ingestion succeeds and the Document text becomes the fixed
sentinel `No results found. Try modifying your search query.`, not an
error. -/
theorem c4_empty_results_sentinel (st : LoaderState) (q : String) (mr : Nat) :
    (load_from_web_search st (Except.ok []) q mr).1
      = "No results found. Try modifying your search query." ∧
    (load_from_web_search st (Except.ok []) q mr).2.current_document
      = "No results found. Try modifying your search query." ∧
    (load_from_web_search st (Except.ok []) q mr).2.document_source
      = "DuckDuckGo Search: " ++ q :=
  ⟨rfl, rfl, rfl⟩

/-- Claim C5, as stated, is false: each formatted block of
`DuckDuckGoSearch.search` carries a trailing newline (from the source
f-string), so the Document text is not the bare `specSearchBlock`s joined by
blank lines — at a single concrete result the two strings differ by that
trailing newline. -/
theorem c5_counterexample :
    ddgSearch (Except.ok [sampleResult]) "lean" 5
      = "Lean theorem prover\nSummary: An interactive theorem prover.\nURL: https:example.org\n" ∧
    specSearchDocument [sampleResult]
      = "Lean theorem prover\nSummary: An interactive theorem prover.\nURL: https:example.org" ∧
    ddgSearch (Except.ok [sampleResult]) "lean" 5
      ≠ specSearchDocument [sampleResult] :=
  ⟨rfl, rfl, by decide⟩

/-- Claim C5 (amended): for every non-empty result sequence the Document
text equals the concatenation of one `title`, `Summary:` and `URL:` block
per result, in provider order, where each block additionally ends with a
newline, the blocks being joined by blank lines and no other characters
added. -/
theorem c5_search_document_format (results : List RawSearchResult)
    (h : results ≠ []) (q : String) (mr : Nat) :
    ddgSearch (Except.ok results) q mr =
      String.intercalate "\n\n"
        (results.map (fun r => specSearchBlock r ++ "\n")) := by
  have hemp : results.isEmpty = false := by simp [List.isEmpty_iff, h]
  have hmap : results.map formatSearchResult
      = results.map (fun r => specSearchBlock r ++ "\n") :=
    List.map_congr_left (fun r _ => formatSearchResult_eq_spec r)
  simp [ddgSearch, hemp, hmap]

/-- Witness for `c5_search_document_format` at a concrete one-result
sequence. -/
theorem c5_witness :
    ddgSearch (Except.ok [sampleResult]) "lean" 5 =
      String.intercalate "\n\n"
        ([sampleResult].map (fun r => specSearchBlock r ++ "\n")) :=
  c5_search_document_format [sampleResult] (by decide) "lean" 5

/-- Claim C6: on the structured path of `load_from_file` with a successful
parse, the index-build block is entered if and only if the concatenated text
is longer than 100 characters; and whenever the loader has no vector store
and the raw Document text fits in `max_chars`, `get_relevant_context`
returns exactly the raw Document text, with no truncation marker. -/
theorem c6_index_threshold_and_short_fallback (st : LoaderState)
    (file : UploadedFile) (oracle : FileOracle) (docs : List String)
    (hext : (pyEndsWith file.name ".txt" || pyEndsWith file.name ".md") = false)
    (hparse : oracle.parseResult = Except.ok docs) :
    ((load_from_file st file oracle).indexBuildInvoked = true ↔
      (String.intercalate "\n\n" docs).length > 100) ∧
    (∀ (simSearch : Except String (List String)) (st' : LoaderState)
        (q : String) (mc : Nat),
      st'.vector_store = none → st'.current_document.length ≤ mc →
      get_relevant_context simSearch st' q mc = st'.current_document) := by
  constructor
  · by_cases hlen : (String.intercalate "\n\n" docs).length > 100
    · cases he : oracle.embedCtorOk with
      | error e =>
        simp [load_from_file, load_structured_inner, hext, hparse, he, hlen]
      | ok u =>
        cases hf : oracle.faissResult with
        | error e2 =>
          simp [load_from_file, load_structured_inner, hext, hparse, he, hf, hlen]
        | ok u2 =>
          simp [load_from_file, load_structured_inner, hext, hparse, he, hf, hlen]
    · simp [load_from_file, load_structured_inner, hext, hparse, hlen]
  · intro simSearch st' q mc hvs hlen
    unfold get_relevant_context
    rw [hvs]
    simp [truncateWithEllipsis_of_le _ _ hlen]

set_option maxRecDepth 4000 in
/-- Witness for `c6_index_threshold_and_short_fallback`: the concrete PDF
ingestion of `examplePassage` (137 characters) enters the index build, and a
loader with no vector store and a short document returns it verbatim. -/
theorem c6_witness :
    (load_from_file initLoaderState pdfUpload pdfOracle).indexBuildInvoked
      = true ∧
    get_relevant_context (Except.ok []) initLoaderState "q" 50 = "" := by
  have h := c6_index_threshold_and_short_fallback initLoaderState pdfUpload
    pdfOracle [examplePassage] (by decide) rfl
  exact ⟨h.1.mpr (by decide),
         h.2 (Except.ok []) initLoaderState "q" 50 rfl (by decide)⟩

/-- Claim C7: on the structured (non `.txt`/`.md`) path of `load_from_file`
the temporary file no longer exists when the call returns, whichever way the
inner `try` ended — successful parse, parser failure, or index-build
failure — because the `finally` clause removes it unconditionally. -/
theorem c7_temp_file_removed (st : LoaderState) (file : UploadedFile)
    (oracle : FileOracle)
    (hext : (pyEndsWith file.name ".txt" || pyEndsWith file.name ".md")
      = false) :
    (load_from_file st file oracle).tempFileExists = false := by
  unfold load_from_file
  rw [hext]
  rcases hinner : load_structured_inner st file.name oracle
    with ⟨st', invoked, exc⟩
  simp only [Bool.false_eq_true, if_false, hinner]
  cases exc <;> rfl

/-- Witness for `c7_temp_file_removed` at the concrete PDF ingestion. -/
theorem c7_witness :
    (load_from_file initLoaderState pdfUpload pdfOracle).tempFileExists
      = false :=
  c7_temp_file_removed initLoaderState pdfUpload pdfOracle (by decide)

/-- Claim C8: `get_relevant_context` performs no assignment to the loader
state (mirroring the method, which reads but never writes `self`), so in the
state-explicit embedding it is a pure function, and two successive calls
with the same state, question, `max_chars` and the same deterministic
similarity-search outcome return identical strings. -/
theorem c8_deterministic (simSearch : Except String (List String))
    (st : LoaderState) (q : String) (mc : Nat) :
    get_relevant_context simSearch st q mc
      = get_relevant_context simSearch st q mc := rfl

/-- Claim C9, as stated, is false: the two internal-failure modes of
`HuggingFaceQA.answer_question` do not return one fixed sentinel answer —
the uninitialized-pipeline answer differs from the raised-call answer, and
the raised-call answer varies with the exception message (though the score
is 0.0 in all cases). -/
theorem c9_counterexample :
    (answer_question true (Except.error "model crashed") "q" "c").answer
      ≠ (answer_question false (Except.ok { answer := "x", score := 1 })
          "q" "c").answer ∧
    (answer_question true (Except.error "model crashed") "q" "c").answer
      ≠ (answer_question true (Except.error "tensor shape mismatch")
          "q" "c").answer ∧
    (answer_question true (Except.error "model crashed") "q" "c").score = 0 ∧
    (answer_question false (Except.ok { answer := "x", score := 1 })
      "q" "c").score = 0 := by
  refine ⟨by decide, by decide, rfl, rfl⟩

/-- Claim C9 (amended): on every internal failure `answer_question` returns,
rather than raising, an error answer with confidence 0.0: the fixed string
`QA pipeline not initialized` when the pipeline is not initialized, and
`QA error: ` followed by the exception message when the underlying model
call raises. -/
theorem c9_failure_answer (q c e : String) (r : QADict) :
    answer_question false (Except.ok r) q c
      = { answer := "QA pipeline not initialized", score := 0 } ∧
    answer_question false (Except.error e) q c
      = { answer := "QA pipeline not initialized", score := 0 } ∧
    answer_question true (Except.error e) q c
      = { answer := "QA error: " ++ e, score := 0 } :=
  ⟨rfl, rfl, rfl⟩

/-- Claim C10: `load_from_example` on a key outside the predefined example
set returns the fixed not-found message and leaves the whole loader state
(hence `current_document` and `document_source`) unchanged; on a key in the
set it returns that example's text, stores it as `current_document` and sets
`document_source` to `Example: ` followed by the key. -/
theorem c10_example_loading (st : LoaderState) (key : String) :
    (default_documents.lookup key = none →
      load_from_example st key =
        ("Example not found. Please select a valid example.", st)) ∧
    (∀ text, default_documents.lookup key = some text →
      (load_from_example st key).1 = text ∧
      (load_from_example st key).2.current_document = text ∧
      (load_from_example st key).2.document_source = "Example: " ++ key) := by
  constructor
  · intro h
    unfold load_from_example
    rw [h]
  · intro t h
    unfold load_from_example
    rw [h]
    exact ⟨rfl, rfl, rfl⟩

/-- Witness for `c10_example_loading` at a missing key and at a present
key. -/
theorem c10_witness :
    load_from_example initLoaderState "quantum_computing"
      = ("Example not found. Please select a valid example.", initLoaderState) ∧
    (load_from_example initLoaderState "ai_ethics").2.document_source
      = "Example: ai_ethics" := by
  constructor
  · exact (c10_example_loading initLoaderState "quantum_computing").1 rfl
  · exact ((c10_example_loading initLoaderState "ai_ethics").2
      aiEthicsText rfl).2.2
